import Mathlib

/-!
Verification development for `src/lstm.py`: a shallow embedding of the
split-aware loss/metrics graph, the learning-rate schedule, the training
session entry logic, the epoch loop's data-quality skip, the cell-kind
dispatch of `create_lstm_graph`, and the `predict` / direct-batch feeder
paths, together with theorems settling the spec claims C1-C10.

Tensor entries are modelled as `ℚ` (exact rational arithmetic standing in
for the float tensors), except where the spec's formula is inherently
real-valued (`tf.train.exponential_decay`'s real power, `tf.sqrt`), where
`ℝ` is used.
-/

namespace LstmSpec

/-- One label/prediction row of a batch: a vector of `n_output_features`
values, modelling one row of the `[batch, n_output_features]` tensors
`y` and `pred`. -/
abbrev Row := List ℚ

/-- One input row of a batch: an `[n_time_steps, n_input_features]` block,
modelling one row of the `[batch, time, features]` tensor `X`. -/
abbrev XRow := List (List ℚ)

/-- The slice `t[0:in_sample_cutoff, :]` (source lines 400-401):
the in-sample rows of a `[batch, n_output_features]` tensor. -/
def inSample (c : ℕ) (rows : List Row) : List Row := rows.take c

/-- The slice `t[in_sample_cutoff:, :]` (source lines 404-405):
the out-of-sample rows of a `[batch, n_output_features]` tensor. -/
def outOfSample (c : ℕ) (rows : List Row) : List Row := rows.drop c

/-- `tf.nn.l2_loss`: half the sum of the squared entries of a tensor. -/
def l2Loss (rows : List Row) : ℚ := (rows.map (fun r => (r.map (fun x => x * x)).sum)).sum / 2

/-- Elementwise subtraction of two rows, modelling `tf.subtract` on one row. -/
def rowSub (a b : Row) : Row := List.zipWith (fun u v => u - v) a b

/-- Elementwise subtraction of two `[batch, n_output_features]` tensors,
modelling `tf.subtract(y_is, pred_is)`. -/
def matSub (a b : List Row) : List Row := List.zipWith rowSub a b

/-- `tf.contrib.layers.apply_regularization` with
`tf.contrib.layers.l1_l2_regularizer(scale_l1, scale_l2)` over the flattened
trainable variables (source lines 472-478):
`scale_l1 * Σ|w| + scale_l2 * (Σ w²)/2`. -/
def l1l2Regularizer (scaleL1 scaleL2 : ℚ) (params : List ℚ) : ℚ :=
  scaleL1 * (params.map (fun w => |w|)).sum + scaleL2 * ((params.map (fun w => w * w)).sum / 2)

/-- Training loss of source lines 469-478:
`tf.nn.l2_loss(tf.subtract(y_is, pred_is))` plus the elastic-net
regularization over the trainable parameters `θ`.  `rowForward θ`
abstracts the network forward pass (`dynamic_rnn` + dense projection),
which processes each batch row independently, so
`pred = X.map (rowForward θ)` and `pred_is = pred[0:c]`. -/
def trainingLoss (rowForward : List ℚ → XRow → Row) (scaleL1 scaleL2 : ℚ)
    (θ : List ℚ) (X : List XRow) (y : List Row) (c : ℕ) : ℚ :=
  l2Loss (matSub (inSample c y) (inSample c (X.map (rowForward θ)))) +
    l1l2Regularizer scaleL1 scaleL2 θ

/-- Out-of-sample observation loss of source line 481:
`tf.nn.l2_loss(tf.subtract(y_oos, pred_oos))`; never fed to the optimizer. -/
def lossOos (rowForward : List ℚ → XRow → Row) (θ : List ℚ)
    (X : List XRow) (y : List Row) (c : ℕ) : ℚ :=
  l2Loss (matSub (outOfSample c y) (outOfSample c (X.map (rowForward θ))))

/-- Claim C1: the training loss minimized by the optimizer depends only on
the in-sample rows `[0, c)` of `X` and `y` (and the parameters): two batches
agreeing on those rows give the same loss as a function of the parameters,
hence any deterministic gradient-step rule (Adam included) produces the same
update. -/
theorem training_loss_reads_only_in_sample_rows
    (rowForward : List ℚ → XRow → Row) (scaleL1 scaleL2 : ℚ) (c : ℕ)
    (X₁ X₂ : List XRow) (y₁ y₂ : List Row)
    (hX : X₁.take c = X₂.take c) (hy : y₁.take c = y₂.take c) :
    (fun θ => trainingLoss rowForward scaleL1 scaleL2 θ X₁ y₁ c) =
      (fun θ => trainingLoss rowForward scaleL1 scaleL2 θ X₂ y₂ c) ∧
    ∀ (adamStep : (List ℚ → ℚ) → List ℚ → List ℚ) (θ : List ℚ),
      adamStep (fun θ => trainingLoss rowForward scaleL1 scaleL2 θ X₁ y₁ c) θ =
        adamStep (fun θ => trainingLoss rowForward scaleL1 scaleL2 θ X₂ y₂ c) θ := by
  have key : (fun θ => trainingLoss rowForward scaleL1 scaleL2 θ X₁ y₁ c) =
      (fun θ => trainingLoss rowForward scaleL1 scaleL2 θ X₂ y₂ c) := by
    funext θ
    unfold trainingLoss inSample
    rw [hy, ← List.map_take, ← List.map_take, hX]
  exact ⟨key, fun adamStep θ => by rw [key]⟩

/-- Witness for C1 at a concrete pair of batches differing only in their
out-of-sample row. -/
theorem training_loss_reads_only_in_sample_rows_witness :
    ([[[ (1:ℚ) ]], [[2]]] : List XRow).take 1 = ([[[1]], [[3]]] : List XRow).take 1 ∧
    ([[(5:ℚ)], [6]] : List Row).take 1 = ([[5], [7]] : List Row).take 1 ∧
    ((fun θ => trainingLoss (fun _ _ => [0]) 1 1 θ [[[1]], [[2]]] [[5], [6]] 1) =
      (fun θ => trainingLoss (fun _ _ => [0]) 1 1 θ [[[1]], [[3]]] [[5], [7]] 1) ∧
    ∀ (adamStep : (List ℚ → ℚ) → List ℚ → List ℚ) (θ : List ℚ),
      adamStep (fun θ => trainingLoss (fun _ _ => [0]) 1 1 θ [[[1]], [[2]]] [[5], [6]] 1) θ =
        adamStep (fun θ => trainingLoss (fun _ _ => [0]) 1 1 θ [[[1]], [[3]]] [[5], [7]] 1) θ) :=
  ⟨by decide, by decide,
    training_loss_reads_only_in_sample_rows (fun _ _ => [0]) 1 1 1 _ _ _ _
      (by decide) (by decide)⟩

/-- Exact-partition property of the in-graph split, stated for the claim C2:
concatenating the two slices restores the batch, the slice lengths add up
with no overlap and no gap, positions are preserved, and every row index
lies in exactly one slice. -/
def SplitPartitions (y pred : List Row) (c n : ℕ) : Prop :=
  inSample c y ++ outOfSample c y = y ∧
  inSample c pred ++ outOfSample c pred = pred ∧
  (inSample c y).length = c ∧ (outOfSample c y).length = n - c ∧
  (inSample c pred).length = c ∧ (outOfSample c pred).length = n - c ∧
  (∀ i, i < c → (inSample c y).get? i = y.get? i) ∧
  (∀ i, c ≤ i → (outOfSample c y).get? (i - c) = y.get? i) ∧
  (∀ i, i < c → (inSample c pred).get? i = pred.get? i) ∧
  (∀ i, c ≤ i → (outOfSample c pred).get? (i - c) = pred.get? i) ∧
  (∀ i, i < n → ((i < c ∧ ¬ c ≤ i) ∨ (c ≤ i ∧ ¬ i < c)))

/-- Claim C2: for every batch of `n` rows and cutoff `0 < c < n`, the slices
`t[0:c,:]` and `t[c:,:]` applied identically to `y` and `pred` partition the
batch exactly. -/
theorem split_partitions_batch (y pred : List Row) (c n : ℕ)
    (hny : y.length = n) (hnp : pred.length = n) (hc0 : 0 < c) (hcn : c < n) :
    SplitPartitions y pred c n := by
  subst hny
  unfold SplitPartitions inSample outOfSample
  refine ⟨List.take_append_drop c y, List.take_append_drop c pred, ?_, ?_, ?_, ?_, ?_, ?_, ?_, ?_, ?_⟩
  · simp [List.length_take]; omega
  · simp [List.length_drop]
  · simp [List.length_take]; omega
  · simp [List.length_drop]; omega
  · intro i hi
    exact List.get?_take hi
  · intro i hi
    rw [List.get?_drop]
    congr 1
    omega
  · intro i hi
    exact List.get?_take hi
  · intro i hi
    rw [List.get?_drop]
    congr 1
    omega
  · intro i _
    omega

/-- Witness for C2 at a concrete two-row batch with cutoff 1. -/
theorem split_partitions_batch_witness :
    ([[(1:ℚ)], [2]] : List Row).length = 2 ∧ ([[(3:ℚ)], [4]] : List Row).length = 2 ∧
    0 < 1 ∧ 1 < 2 ∧ SplitPartitions [[(1:ℚ)], [2]] [[(3:ℚ)], [4]] 1 2 :=
  ⟨by decide, by decide, by decide, by decide,
    split_partitions_batch _ _ 1 2 (by decide) (by decide) (by decide) (by decide)⟩

/-- Learning-rate schedule of source lines 443-461:
`tf.train.exponential_decay(learning_rate, global_step, decay_steps, decay_rate)`
with the default continuous (non-staircase) mode computes
`learning_rate * decay_rate ^ (global_step / decay_steps)`, where the caller
feeds `global_step` as the progress fraction `i / epoch_end`
(source line 659). -/
noncomputable def adaptiveLearningRate (startRate decayRate decaySteps p : ℝ) : ℝ :=
  startRate * decayRate ^ (p / decaySteps)

/-- Claim C3: the learning rate fed to the optimizer equals
`r * d ^ (p / s)`; at progress fraction 0 it equals `r` exactly, and at
progress fraction 1 with `decay_steps = 1` it equals `r * d`. -/
theorem learning_rate_schedule (r d s p : ℝ) :
    adaptiveLearningRate r d s p = r * d ^ (p / s) ∧
    adaptiveLearningRate r d s 0 = r ∧
    adaptiveLearningRate r d 1 1 = r * d := by
  refine ⟨rfl, ?_, ?_⟩
  · simp [adaptiveLearningRate]
  · simp [adaptiveLearningRate]

/-- One tensor value as seen by `np.isfinite`: `some q` is a finite value,
`none` a non-finite one (NaN or infinity). -/
abbrev Val := Option ℚ

/-- One tuple yielded by the training data feeder (source line 627):
`(batch_X, batch_y, y_is_mean, y_is_std, batch_y_index, in_sample_size, batch_id)`. -/
structure TBatch where
  X : List (List (List Val))
  y : List (List Val)
  yIsMean : ℚ
  yIsStd : ℚ
  yIndex : ℕ
  inSampleSize : ℕ
  batchId : ℕ
deriving DecidableEq

/-- The finiteness check of source lines 629-630:
`np.isfinite(batch_X).sum() == batch_X.size and np.isfinite(batch_y).sum() == batch_y.size`. -/
def batchFinite (b : TBatch) : Bool :=
  (b.X.all fun r => r.all fun t => t.all Option.isSome) &&
    (b.y.all fun r => r.all Option.isSome)

/-- Per-epoch accumulators of the training loop (source lines 622-625 and
700-737): epoch loss totals, the epoch's concatenated out-of-sample
actual/predicted arrays, per-batch correlation histories, and the step
counter. -/
structure EpochState where
  lossEpoch : ℚ
  lossOosEpoch : ℚ
  actualOos : List Row
  predictedOos : List Row
  allCorrIs : List ℚ
  allCorrOos : List ℚ
  step : ℕ
deriving DecidableEq

/-- One iteration of the batch loop (source lines 627-802): if the batch
fails the finiteness check it is skipped by `continue` (no gradient step, no
accumulation, no exception); otherwise the body — shape assertions,
`inner_iteration` gradient steps, the evaluation pass and the accumulation,
abstracted here as `process`, which may itself raise (the asserts) — runs. -/
def epochBatchStep (process : EpochState → TBatch → Except String EpochState)
    (s : EpochState) (b : TBatch) : Except String EpochState :=
  if batchFinite b then process s b else .ok s

/-- The batch loop of one epoch: fold `epochBatchStep` over the feeder's
batches, propagating any exception raised by the loop body. -/
def runEpochBatches (process : EpochState → TBatch → Except String EpochState)
    (s : EpochState) : List TBatch → Except String EpochState
  | [] => .ok s
  | b :: rest => do
      let s' ← epochBatchStep process s b
      runEpochBatches process s' rest

/-- Claim C4: a batch containing a non-finite value in `X` or `y` is skipped
entirely and silently — running the epoch loop over a batch list containing
it gives exactly the same outcome (accumulators, exceptions and all) as
running it over the list with that batch removed, whatever the loop body
does for the valid batches. -/
theorem nonfinite_batch_skipped
    (process : EpochState → TBatch → Except String EpochState)
    (s : EpochState) (pre post : List TBatch) (b : TBatch)
    (hb : batchFinite b = false) :
    runEpochBatches process s (pre ++ b :: post) =
      runEpochBatches process s (pre ++ post) := by
  induction pre generalizing s with
  | nil =>
      simp only [List.nil_append, runEpochBatches, epochBatchStep, hb, Bool.false_eq_true,
        if_false]
      rfl
  | cons a rest ih =>
      simp only [List.cons_append, runEpochBatches]
      cases epochBatchStep process s a with
      | error e => rfl
      | ok s' => exact ih s'

/-- Witness for C4: a singleton batch list whose batch has one NaN in `X`
is equivalent to the empty epoch. -/
theorem nonfinite_batch_skipped_witness :
    batchFinite ⟨[[[none]]], [[some 1]], 0, 1, 0, 1, 0⟩ = false ∧
    runEpochBatches (fun s _ => .ok s) ⟨0, 0, [], [], [], [], 1⟩
        ([] ++ ⟨[[[none]]], [[some 1]], 0, 1, 0, 1, 0⟩ :: []) =
      runEpochBatches (fun s _ => .ok s) ⟨0, 0, [], [], [], [], 1⟩ ([] ++ []) :=
  ⟨by decide,
    nonfinite_batch_skipped (fun s _ => .ok s) ⟨0, 0, [], [], [], [], 1⟩ [] []
      ⟨[[[none]]], [[some 1]], 0, 1, 0, 1, 0⟩ (by decide)⟩

/-- Names of checkpoint files under `model_dir` (source lines 585, 598,
830-831): `{sessid}_epoch_{i}.ckpt`, `{sessid}_latest.ckpt`, or an
explicitly supplied external checkpoint name. -/
inductive CkptName where
  | epochTagged (sessid epoch : ℕ)
  | latest (sessid : ℕ)
  | external (name : ℕ)
deriving DecidableEq

/-- In-memory state of an `LSTM` instance relevant to the `train` entry
logic: `self.sessid`, `self.graph_trained`, `self.trained_epochs`, and the
accumulated result holders (represented by `all_epochs` and
`all_losses_per_epoch`; `clear_prev_results` resets exactly these holders). -/
structure ModelState where
  sessid : Option ℕ
  graphTrained : Bool
  trainedEpochs : ℕ
  allEpochs : List ℕ
  allLossesPerEpoch : List ℚ
deriving DecidableEq

/-- The state of a freshly constructed instance (source lines 118-138). -/
def initialModelState : ModelState :=
  { sessid := none, graphTrained := false, trainedEpochs := 0,
    allEpochs := [], allLossesPerEpoch := [] }

/-- `clear_prev_results` (source lines 531-543): resets the accumulated
result holders, leaving `sessid`, `graph_trained` and `trained_epochs`
untouched. -/
def clearPrevResults (m : ModelState) : ModelState :=
  { m with allEpochs := [], allLossesPerEpoch := [] }

/-- Success/failure oracle for the checkpoint I/O performed through
`model_saver`: whether `restore` calls succeed and whether `save` calls
succeed. -/
structure CkptEnv where
  restoreOk : Bool
  saveOk : Bool
deriving DecidableEq

/-- Outcome of one `train` call: the updated instance state, the first epoch
number the loop used, the checkpoint restored at entry (if any), and the
checkpoint files written on disk. -/
structure TrainOutcome where
  state : ModelState
  startEpoch : ℕ
  restoredCkpt : Option CkptName
  disk : List CkptName
deriving DecidableEq

/-- The epoch numbers the `while i <= epoch_end` loop visits starting
from `start`. -/
def epochNumbers (start epochEnd : ℕ) : List ℕ := List.range' start (epochEnd + 1 - start)

/-- The epoch loop of `train` (source lines 619-838) at the session level:
each visited epoch `i` appends `i` to `all_epochs` and its loss total to
`all_losses_per_epoch` (the per-epoch total abstracted as `epochLoss i`),
then tries to save the epoch-tagged and latest-tagged checkpoints — a save
failure is caught and logged (source lines 829-834), so it never affects the
in-memory state and the loop continues; after the loop `graph_trained` is
set and `trained_epochs := i - 1` (source lines 837-838). -/
def runEpochs (m : ModelState) (sid start epochEnd : ℕ) (epochLoss : ℕ → ℚ)
    (restored : Option CkptName) (env : CkptEnv) : TrainOutcome :=
  let es := epochNumbers start epochEnd
  let finalI := if start ≤ epochEnd then epochEnd + 1 else start
  { state := { m with
      allEpochs := m.allEpochs ++ es,
      allLossesPerEpoch := m.allLossesPerEpoch ++ es.map epochLoss,
      graphTrained := true,
      trainedEpochs := finalI - 1 },
    startEpoch := start,
    restoredCkpt := restored,
    disk := es.flatMap fun i =>
      if env.saveOk then [CkptName.epochTagged sid i, CkptName.latest sid] else [] }

/-- The entry logic of `train` (source lines 545-617) followed by the epoch
loop: with `restore_model` set and an explicit `pre_trained_model`, restore
it (a restore failure raises to the caller), keep or assign `sessid`, and
start at `epoch_prev + 1`; with no explicit name but a graph already trained
in-process, restore `{sessid}_latest.ckpt` (failure raises) and start at
`trained_epochs + 1`; otherwise clear previous results, initialize
parameters, draw a new session identifier `freshId` and start at 1. -/
def trainEntry (m : ModelState) (restoreModel : Bool) (preTrained : Option ℕ)
    (epochPrev epochEnd : ℕ) (freshId : ℕ) (epochLoss : ℕ → ℚ) (env : CkptEnv) :
    Except String TrainOutcome :=
  if restoreModel then
    match preTrained with
    | some name =>
        if env.restoreOk then
          let sid := m.sessid.getD freshId
          .ok (runEpochs { m with sessid := some sid } sid (epochPrev + 1) epochEnd
                epochLoss (some (CkptName.external name)) env)
        else .error "Session restore failed"
    | none =>
        if m.graphTrained then
          match m.sessid with
          | some sid =>
              if env.restoreOk then
                .ok (runEpochs m sid (m.trainedEpochs + 1) epochEnd
                      epochLoss (some (CkptName.latest sid)) env)
              else .error "Active session restore failed"
          | none => .error "AssertionError: sessid is None"
        else
          .ok (runEpochs (clearPrevResults { m with sessid := some freshId }) freshId 1
                epochEnd epochLoss none env)
  else
    .ok (runEpochs (clearPrevResults { m with sessid := some freshId }) freshId 1
          epochEnd epochLoss none env)

/-- Helper: on an instance with no prior in-process training, `train` with
`restore_model=True` and no explicit checkpoint takes the fresh branch. -/
theorem trainEntry_fresh_eq (m : ModelState) (epochEnd fid : ℕ) (epochLoss : ℕ → ℚ)
    (env : CkptEnv) (hgt : m.graphTrained = false) :
    trainEntry m true none 0 epochEnd fid epochLoss env =
      .ok (runEpochs (clearPrevResults { m with sessid := some fid }) fid 1 epochEnd
            epochLoss none env) := by
  simp [trainEntry, hgt]

/-- Helper: on an instance already trained in-process, `train` with no
explicit checkpoint restores the latest checkpoint of its own session and
starts at `trained_epochs + 1`. -/
theorem trainEntry_resume_eq (m : ModelState) (sid epochEnd fid : ℕ) (epochLoss : ℕ → ℚ)
    (env : CkptEnv) (hgt : m.graphTrained = true) (hs : m.sessid = some sid)
    (hr : env.restoreOk = true) :
    trainEntry m true none 0 epochEnd fid epochLoss env =
      .ok (runEpochs m sid (m.trainedEpochs + 1) epochEnd epochLoss
            (some (CkptName.latest sid)) env) := by
  simp [trainEntry, hgt, hs, hr]

/-- Claim C5: a fresh run (no prior in-process training) clears accumulated
metrics, assigns the new session identifier and counts epochs from 1; after
it reaches trained-epoch high-water mark `h`, a subsequent call with no
explicit checkpoint name and a larger end epoch restores that instance's
latest checkpoint and continues epoch numbering at `h + 1` with the same
session identifier. -/
theorem resume_continues_epoch_numbering
    (h e fid fid2 : ℕ) (epochLoss : ℕ → ℚ) (env : CkptEnv)
    (h1 : 1 ≤ h) (he : h < e) (hr : env.restoreOk = true) :
    ∃ r1 r2 : TrainOutcome,
      trainEntry initialModelState true none 0 h fid epochLoss env = .ok r1 ∧
      r1.startEpoch = 1 ∧ r1.state.sessid = some fid ∧
      r1.state.allEpochs = epochNumbers 1 h ∧ r1.state.trainedEpochs = h ∧
      trainEntry r1.state true none 0 e fid2 epochLoss env = .ok r2 ∧
      r2.startEpoch = h + 1 ∧
      r2.restoredCkpt = some (CkptName.latest fid) ∧
      r2.state.sessid = some fid ∧
      r2.state.allEpochs = epochNumbers 1 h ++ epochNumbers (h + 1) e ∧
      r2.state.trainedEpochs = e := by
  set R1 : TrainOutcome :=
    runEpochs (clearPrevResults { initialModelState with sessid := some fid }) fid 1 h
      epochLoss none env with hR1
  have e1 : trainEntry initialModelState true none 0 h fid epochLoss env = .ok R1 :=
    trainEntry_fresh_eq initialModelState h fid epochLoss env rfl
  have hGT : R1.state.graphTrained = true := by simp [hR1, runEpochs]
  have hSid : R1.state.sessid = some fid := by simp [hR1, runEpochs, clearPrevResults]
  have hAE : R1.state.allEpochs = epochNumbers 1 h := by
    simp [hR1, runEpochs, clearPrevResults, initialModelState]
  have hTE : R1.state.trainedEpochs = h := by
    simp only [hR1, runEpochs]
    rw [if_pos h1]
    omega
  set R2 : TrainOutcome :=
    runEpochs R1.state fid (h + 1) e epochLoss (some (CkptName.latest fid)) env with hR2
  have e2 : trainEntry R1.state true none 0 e fid2 epochLoss env = .ok R2 := by
    have t := trainEntry_resume_eq R1.state fid e fid2 epochLoss env hGT hSid hr
    rw [hTE] at t
    exact t
  refine ⟨R1, R2, e1, ?_, hSid, hAE, hTE, e2, ?_, ?_, ?_, ?_, ?_⟩
  · simp [hR1, runEpochs]
  · simp [hR2, runEpochs]
  · simp [hR2, runEpochs]
  · simp [hR2, runEpochs, hSid]
  · simp [hR2, runEpochs, hAE]
  · simp only [hR2, runEpochs]
    rw [if_pos (by omega : h + 1 ≤ e)]
    omega

/-- Witness for C5 at the spec's scenario: high-water mark 5, new end
epoch 10. -/
theorem resume_continues_epoch_numbering_witness :
    1 ≤ 5 ∧ 5 < 10 ∧ (CkptEnv.mk true true).restoreOk = true ∧
    (∃ r1 r2 : TrainOutcome,
      trainEntry initialModelState true none 0 5 7 (fun _ => 0) ⟨true, true⟩ = .ok r1 ∧
      r1.startEpoch = 1 ∧ r1.state.sessid = some 7 ∧
      r1.state.allEpochs = epochNumbers 1 5 ∧ r1.state.trainedEpochs = 5 ∧
      trainEntry r1.state true none 0 10 9 (fun _ => 0) ⟨true, true⟩ = .ok r2 ∧
      r2.startEpoch = 5 + 1 ∧
      r2.restoredCkpt = some (CkptName.latest 7) ∧
      r2.state.sessid = some 7 ∧
      r2.state.allEpochs = epochNumbers 1 5 ++ epochNumbers (5 + 1) 10 ∧
      r2.state.trainedEpochs = 10) :=
  ⟨by decide, by decide, by decide,
    resume_continues_epoch_numbering 5 10 7 9 (fun _ => 0) ⟨true, true⟩
      (by decide) (by decide) (by decide)⟩

/-- Claim C6: checkpoint I/O failures are asymmetric — a restore failure at
the start of a `train` call (either the explicit-name path or the
resume-latest path) aborts the call with an exception, while a save failure
at the end of each epoch is swallowed: the call still succeeds and the
resulting in-memory state is exactly the one a successful save would have
produced, only the disk contents differ. -/
theorem checkpoint_failure_asymmetry
    (m : ModelState) (sid name e fid : ℕ) (epochLoss : ℕ → ℚ)
    (hgt : m.graphTrained = true) (hs : m.sessid = some sid) :
    (∀ sv : Bool,
      trainEntry m true (some name) 0 e fid epochLoss ⟨false, sv⟩ =
        .error "Session restore failed") ∧
    (∀ sv : Bool,
      trainEntry m true none 0 e fid epochLoss ⟨false, sv⟩ =
        .error "Active session restore failed") ∧
    (∃ r r' : TrainOutcome,
      trainEntry m true none 0 e fid epochLoss ⟨true, false⟩ = .ok r ∧
      trainEntry m true none 0 e fid epochLoss ⟨true, true⟩ = .ok r' ∧
      r.state = r'.state ∧ r.startEpoch = r'.startEpoch ∧
      r.restoredCkpt = r'.restoredCkpt ∧ r.disk = []) := by
  refine ⟨fun sv => by simp [trainEntry], fun sv => ?_, ?_⟩
  · simp [trainEntry, hgt, hs]
  · have t1 := trainEntry_resume_eq m sid e fid epochLoss ⟨true, false⟩ hgt hs rfl
    have t2 := trainEntry_resume_eq m sid e fid epochLoss ⟨true, true⟩ hgt hs rfl
    refine ⟨_, _, t1, t2, ?_, ?_, ?_, ?_⟩
    · simp [runEpochs]
    · simp [runEpochs]
    · simp [runEpochs]
    · simp [runEpochs]

/-- Witness for C6 on a concrete previously-trained instance state. -/
theorem checkpoint_failure_asymmetry_witness :
    (ModelState.mk (some 3) true 2 [1, 2] [0, 0]).graphTrained = true ∧
    (ModelState.mk (some 3) true 2 [1, 2] [0, 0]).sessid = some 3 ∧
    ((∀ sv : Bool,
      trainEntry ⟨some 3, true, 2, [1, 2], [0, 0]⟩ true (some 11) 0 4 8 (fun _ => 0) ⟨false, sv⟩ =
        .error "Session restore failed") ∧
    (∀ sv : Bool,
      trainEntry ⟨some 3, true, 2, [1, 2], [0, 0]⟩ true none 0 4 8 (fun _ => 0) ⟨false, sv⟩ =
        .error "Active session restore failed") ∧
    (∃ r r' : TrainOutcome,
      trainEntry ⟨some 3, true, 2, [1, 2], [0, 0]⟩ true none 0 4 8 (fun _ => 0) ⟨true, false⟩ = .ok r ∧
      trainEntry ⟨some 3, true, 2, [1, 2], [0, 0]⟩ true none 0 4 8 (fun _ => 0) ⟨true, true⟩ = .ok r' ∧
      r.state = r'.state ∧ r.startEpoch = r'.startEpoch ∧
      r.restoredCkpt = r'.restoredCkpt ∧ r.disk = [])) :=
  ⟨by decide, by decide,
    checkpoint_failure_asymmetry ⟨some 3, true, 2, [1, 2], [0, 0]⟩ 3 11 4 8 (fun _ => 0)
      (by decide) (by decide)⟩

/-- Cell-kind dispatch of `create_lstm_graph` (source lines 283-358):
`cellType` models `self.cell_type`, which `__init__` stores already
uppercased (`cell_type.upper()`, line 104).  The method first asserts that
`n_input_features` is available (line 284), then builds the stacked cells
for `LSTM`, `GRU` or `RNN`, and hits `assert False` for any other kind
(lines 357-358), raising at build time. -/
def createLstmGraph (cellType : String) (nInputFeatures : Option ℕ) : Except String Unit :=
  match nInputFeatures with
  | none => .error "AssertionError: n_input_features is None"
  | some _ =>
      if cellType = "LSTM" then .ok ()
      else if cellType = "GRU" then .ok ()
      else if cellType = "RNN" then .ok ()
      else .error ("AssertionError: cell_type " ++ cellType ++ " is not recognized")

/-- Result of `LSTM.__init__` visible to the caller: whether
`self.graph_ready` ended up `True`. -/
structure InitResult where
  graphReady : Bool
deriving DecidableEq

/-- `LSTM.__init__` with graph creation (source lines 161-170): when
`create_graph` is set, the `create_lstm_graph` call is wrapped in
try/except — on an exception a message is printed, `graph_ready` is set to
`False`, and nothing propagates to the caller. -/
def lstmInit (cellType : String) (nInputFeatures : Option ℕ) (createGraph : Bool) :
    Except String InitResult :=
  if createGraph then
    match createLstmGraph cellType nInputFeatures with
    | .ok _ => .ok { graphReady := true }
    | .error _ => .ok { graphReady := false }
  else .ok { graphReady := false }

/-- Counterexample to claim C7: constructing an instance with unrecognized
cell kind `FOO` and `create_graph=True` does not surface any error to the
caller — `__init__` catches the build exception and merely leaves
`graph_ready` as `False`. -/
theorem unknown_cell_kind_constructor_swallows :
    lstmInit "FOO" (some 10) true = .ok { graphReady := false } ∧
    ∀ msg : String, lstmInit "FOO" (some 10) true ≠ .error msg := by
  refine ⟨rfl, fun msg h => ?_⟩
  rw [show lstmInit "FOO" (some 10) true = .ok { graphReady := false } from rfl] at h
  exact Except.noConfusion h

/-- Claim C7 as amended: an unrecognized cell kind makes `create_lstm_graph`
itself fail at build time (the error reaches whoever calls the build method
directly), but when the network is built during instance construction with
`create_graph=True` the exception is caught inside `__init__`: the
constructor returns normally with `graph_ready = False`. -/
theorem unknown_cell_kind_raises_at_build (ct : String) (nf : ℕ)
    (h1 : ct ≠ "LSTM") (h2 : ct ≠ "GRU") (h3 : ct ≠ "RNN") :
    createLstmGraph ct (some nf) =
      .error ("AssertionError: cell_type " ++ ct ++ " is not recognized") ∧
    lstmInit ct (some nf) true = .ok { graphReady := false } := by
  constructor
  · simp [createLstmGraph, h1, h2, h3]
  · simp [lstmInit, createLstmGraph, h1, h2, h3]

/-- Witness for the amended C7 at cell kind `FOO`. -/
theorem unknown_cell_kind_raises_at_build_witness :
    ("FOO" ≠ "LSTM") ∧ ("FOO" ≠ "GRU") ∧ ("FOO" ≠ "RNN") ∧
    (createLstmGraph "FOO" (some 10) =
      .error ("AssertionError: cell_type " ++ "FOO" ++ " is not recognized") ∧
    lstmInit "FOO" (some 10) true = .ok { graphReady := false }) :=
  ⟨by decide, by decide, by decide,
    unknown_cell_kind_raises_at_build "FOO" 10 (by decide) (by decide) (by decide)⟩

/-- `tf.reduce_mean` of a single-column series (the metrics of source lines
407-441 specialized to one output dimension, where the global and per-column
means coincide). -/
noncomputable def seriesMean (xs : List ℝ) : ℝ := xs.sum / xs.length

/-- The covariance of lines 410-413 / 427-430 for one output column:
`Σ (pred_i - mean pred) * (y_i - mean y)`. -/
noncomputable def seriesCovariance (p y : List ℝ) : ℝ :=
  (List.zipWith (fun a b => (a - seriesMean p) * (b - seriesMean y)) p y).sum

/-- The variance sum of lines 414-419 / 431-436 for one column:
`tf.reduce_sum(tf.square(x - tf.reduce_mean(x)))`. -/
noncomputable def varSum (xs : List ℝ) : ℝ :=
  (xs.map (fun a => (a - seriesMean xs) * (a - seriesMean xs))).sum

/-- Pearson correlation of the stats block (lines 407-441, one output
column): `covariance / (sqrt(var_pred * var_y) + epsilon)` with
`epsilon = 1.e-4` added to the denominator. -/
noncomputable def pearsonCorr (pred y : List ℝ) : ℝ :=
  seriesCovariance pred y / (Real.sqrt (varSum pred * varSum y) + 1 / 10000)

/-- Helper: the mean of the series `[1, 2]`. -/
theorem seriesMean_one_two : seriesMean [1, 2] = 3 / 2 := by
  simp [seriesMean]
  norm_num

/-- Helper: the variance sum of the series `[1, 2]`. -/
theorem varSum_one_two : varSum [1, 2] = 1 / 2 := by
  simp [varSum, seriesMean_one_two]
  norm_num

/-- Counterexample to claim C8: the Pearson correlation of the non-constant
series `[1, 2]` with itself is `5000 / 5001`, not `1` — the epsilon in the
denominator shifts every correlation, not only the constant-series case. -/
theorem pearson_self_not_one :
    pearsonCorr [1, 2] [1, 2] = 5000 / 5001 ∧ pearsonCorr [1, 2] [1, 2] ≠ 1 := by
  have hc : seriesCovariance [1, 2] [1, 2] = 1 / 2 := by
    simp [seriesCovariance, seriesMean_one_two]
    norm_num
  have hs : Real.sqrt (varSum [1, 2] * varSum [1, 2]) = 1 / 2 := by
    rw [varSum_one_two,
      show (1 / 2 : ℝ) * (1 / 2) = (1 / 2) ^ 2 by ring,
      Real.sqrt_sq (by norm_num : (0:ℝ) ≤ 1 / 2)]
  constructor
  · rw [pearsonCorr, hc, hs]
    norm_num
  · rw [pearsonCorr, hc, hs]
    norm_num

/-- Claim C8 as amended: for every series, the self-correlation computed by
the stats block equals `V / (V + 1e-4)` where `V` is the variance sum — in
particular it is strictly below 1 for every non-constant series (never
exactly 1), and the additive epsilon makes the constant-series case a plain
0 rather than a division by zero. -/
theorem pearson_self_correlation (xs : List ℝ) :
    pearsonCorr xs xs = varSum xs / (varSum xs + 1 / 10000) ∧
    (0 < varSum xs → pearsonCorr xs xs < 1) ∧
    (varSum xs = 0 → pearsonCorr xs xs = 0) := by
  have hvnonneg : 0 ≤ varSum xs := by
    apply List.sum_nonneg
    intro x hx
    simp only [List.mem_map] at hx
    obtain ⟨a, _, rfl⟩ := hx
    exact mul_self_nonneg _
  have hcov : seriesCovariance xs xs = varSum xs := by
    unfold seriesCovariance varSum
    rw [List.zipWith_same]
  have hsqrt : Real.sqrt (varSum xs * varSum xs) = varSum xs :=
    Real.sqrt_mul_self hvnonneg
  have hmain : pearsonCorr xs xs = varSum xs / (varSum xs + 1 / 10000) := by
    unfold pearsonCorr
    rw [hcov, hsqrt]
  refine ⟨hmain, fun hv => ?_, fun hv => ?_⟩
  · rw [hmain, div_lt_one (by linarith)]
    linarith
  · rw [hmain, hv]
    norm_num

/-- Witness for the amended C8: the series `[1, 2]` is non-constant and its
self-correlation is strictly below 1. -/
theorem pearson_self_correlation_witness :
    0 < varSum [1, 2] ∧ pearsonCorr [1, 2] [1, 2] < 1 := by
  have h0 : (0:ℝ) < varSum [1, 2] := by
    rw [varSum_one_two]
    norm_num
  exact ⟨h0, (pearson_self_correlation [1, 2]).2.1 h0⟩

/-- One element yielded by the inference data feeder (source lines 911-917):
either a raw input array or a full training-style tuple
`(batch_X, batch_y, y_mean, y_astd, y_index, in_sample_size, this_gvkey)`. -/
inductive PredFeedItem where
  | raw (X : List XRow)
  | full (X : List XRow) (y : List Row) (yMean yStd : ℚ) (yIndex : ℕ)
      (inSampleSize : ℕ) (gvkey : ℕ)

/-- The tuple `predict` yields per batch (source line 935):
`(pred_val, batch_X, batch_y, y_mean, y_astd, y_index, this_gvkey)`. -/
structure PredOut where
  pred : List Row
  X : List XRow
  y : Option (List Row)
  yMean : Option ℚ
  yStd : Option ℚ
  yIndex : Option ℕ
  gvkey : Option ℕ

/-- Numpy broadcast `a * std + mean` on an array of rows; when any operand
is Python `None` (`NoneType`), the multiplication raises a `TypeError`
(source lines 933-934). -/
def npDenorm (rows : Option (List Row)) (std mean : Option ℚ) :
    Except String (List Row) :=
  match rows, std, mean with
  | some rs, some sd, some mu => .ok (rs.map fun r => r.map fun v => v * sd + mu)
  | _, _, _ => .error "TypeError: unsupported operand types for NoneType"

/-- One iteration of the `predict` loop (source lines 911-935): unpack the
feeder element — for a raw array the label fields are set to `None` — run
the forward pass with `keep_prob = 1.0` and
`in_sample_cutoff = total_sample_size` (`rowForward θ` abstracts the
dropout-free per-row network forward pass), then de-normalize `batch_y` and
`pred_val` with `y_astd`/`y_mean` before yielding the output tuple. -/
def predictBatch (rowForward : List ℚ → XRow → Row) (θ : List ℚ)
    (item : PredFeedItem) : Except String PredOut := do
  let (batchX, batchY, yMean, yStd, yIndex, gvkey) :=
    match item with
    | .full X y m s idx _ g => (X, some y, some m, some s, some idx, some g)
    | .raw X => (X, none, none, none, none, none)
  let predVal := batchX.map (rowForward θ)
  let batchY2 ← npDenorm batchY yStd yMean
  let predVal2 ← npDenorm (some predVal) yStd yMean
  .ok { pred := predVal2, X := batchX, y := some batchY2, yMean := yMean,
        yStd := yStd, yIndex := yIndex, gvkey := gvkey }

/-- Claim C9 evaluated on the code: feeding `predict` a raw input array (no
labels) raises a `TypeError` before anything is yielded — the unconditional
de-normalization `batch_y * y_astd + y_mean` multiplies `None` by `None` —
while a full training-style tuple is processed and yielded normally. -/
theorem predict_raw_input_raises (rowForward : List ℚ → XRow → Row) (θ : List ℚ)
    (X : List XRow) :
    predictBatch rowForward θ (PredFeedItem.raw X) =
      .error "TypeError: unsupported operand types for NoneType" ∧
    ∀ (y : List Row) (m s : ℚ) (idx isz g : ℕ), ∃ out : PredOut,
      predictBatch rowForward θ (PredFeedItem.full X y m s idx isz g) = .ok out ∧
      out.y = some (y.map fun r => r.map fun v => v * s + m) :=
  ⟨rfl, fun y m s idx isz g => ⟨_, rfl, rfl⟩⟩

/-- A Python value appearing in a data-feeder tuple, as far as arity and
content of the direct-batch feeder are concerned. -/
inductive PyVal where
  | arr3 (a : List XRow)
  | arr2 (a : List Row)
  | num (q : ℚ)
  | nat (n : ℕ)
deriving DecidableEq

/-- The feeder `train` builds internally when `batch_X`, `batch_y` and
`in_sample_size` are passed directly (source lines 570-573): it returns a
single 6-element tuple
`(batch_X, batch_y, y_is_mean, y_is_std, in_sample_size, total_sample_size)`.
The name `total_sample_size` is a free variable of the enclosing `train`
call, first assigned only inside the batch loop (line 628), so the feeder's
first invocation dereferences an unbound local: a `NameError`. -/
def directDataFeeder (batchX : List XRow) (batchY : List Row)
    (yIsMean yIsStd : ℚ) (inSampleSize : ℕ) (totalSampleSize : Option ℕ) :
    Except String (List (List PyVal)) :=
  match totalSampleSize with
  | none => .error "NameError: free variable total_sample_size referenced before assignment"
  | some t =>
      .ok [[.arr3 batchX, .arr2 batchY, .num yIsMean, .num yIsStd,
            .nat inSampleSize, .nat t]]

/-- The 7-variable unpacking of the epoch loop header (source line 627):
`for batch_X, batch_y, y_is_mean, y_is_std, batch_y_index, in_sample_size,
batch_id in data_feeder()`; a tuple of any other arity raises a
`ValueError`. -/
def unpackEpochTuple (t : List PyVal) :
    Except String (PyVal × PyVal × PyVal × PyVal × PyVal × PyVal × PyVal) :=
  match t with
  | [a, b, c, d, e, f, g] => .ok (a, b, c, d, e, f, g)
  | _ => .error "ValueError: not enough values to unpack"

/-- The direct-batch-data path of `train` up to the first gradient step: the
feeder is invoked at the epoch loop header, before any gradient step runs;
on success each yielded tuple must unpack into the seven loop variables.
The returned number counts gradient steps completed before any failure. -/
def trainDirectData (batchX : List XRow) (batchY : List Row)
    (yIsMean yIsStd : ℚ) (inSampleSize : ℕ) : Except String ℕ := do
  let items ← directDataFeeder batchX batchY yIsMean yIsStd inSampleSize none
  match items with
  | [] => .ok 0
  | t :: _ => do
      let _ ← unpackEpochTuple t
      .ok 0

/-- Claim C10: a `train` call supplying batch data directly raises before
completing a single gradient step — the internally built feeder dereferences
the not-yet-bound `total_sample_size` (a `NameError` at its first
invocation), and even with that name bound its 6-element tuple could not be
unpacked into the loop's 7 variables. -/
theorem direct_batch_data_raises (batchX : List XRow) (batchY : List Row)
    (yIsMean yIsStd : ℚ) (inSampleSize : ℕ) :
    trainDirectData batchX batchY yIsMean yIsStd inSampleSize =
      .error "NameError: free variable total_sample_size referenced before assignment" ∧
    ∀ t : ℕ, ∃ tup : List PyVal,
      directDataFeeder batchX batchY yIsMean yIsStd inSampleSize (some t) = .ok [tup] ∧
      tup.length = 6 ∧
      unpackEpochTuple tup = .error "ValueError: not enough values to unpack" :=
  ⟨rfl, fun t => ⟨_, rfl, rfl, rfl⟩⟩

end LstmSpec
